import Mathlib

/-!
# Formal model of the WebReviewerBack backend

A shallow embedding, in Lean 4, of the parts of the Python backend
(`src/main.py`, `src/services/*.py`) that the verified properties below
are about.  Python dicts become association lists or structures, the
remote Postgres tables become lists of rows carried in explicit state,
fallible code returns `Except`/`Option`, and wall-clock instants are
integers counting seconds.
-/

deriving instance DecidableEq for Except

namespace WebReviewer

/-! ## Pagination helpers (src/services/pagination.py) -/

/-- Request-level pagination parameters.  The pydantic model declares
exactly two fields: `page` (ge=1, default 1) and `limit` (ge=1, le=10,
default 10). -/
structure PaginationParams where
  page : Nat
  limit : Nat
deriving DecidableEq

/-- Pagination metadata returned by `create_pagination_info`. -/
structure PaginationInfo where
  current_page : Nat
  total_pages : Nat
  total_count : Nat
  has_next : Bool
  has_previous : Bool
deriving DecidableEq

/-- `create_pagination_info(page, limit, total_count)`:
`total_pages = ceil(total_count / limit) if total_count > 0 else 1`,
then `has_next = page < total_pages`, `has_previous = page > 1`.
`math.ceil` of the exact division is ceiling division `⌈/⌉` on `ℕ`. -/
def create_pagination_info (page limit total_count : Nat) : PaginationInfo :=
  let total_pages : Nat := if 0 < total_count then total_count ⌈/⌉ limit else 1
  { current_page := page
    total_pages := total_pages
    total_count := total_count
    has_next := decide (page < total_pages)
    has_previous := decide (1 < page) }

/-- `get_offset(page, limit) = (page - 1) * limit`. -/
def get_offset (page limit : Nat) : Nat :=
  (page - 1) * limit

/-! ## JWT refresh tokens (src/services/auth.py, lines 341-369)

`python-jose` usage is textbook: `jwt.encode` signs the payload with
`SECRET_KEY`, `jwt.decode` checks the signature and rejects the token
when its `exp` claim lies strictly in the past.  We model a signed token
as its payload (an association list of string claims), its expiry
instant, and the key it was signed with; decoding with the wrong key or
after expiry fails exactly as the library raises `JWTError` /
`ExpiredSignatureError`. -/

/-- The `SECRET_KEY` environment value, an arbitrary fixed string. -/
def SECRET_KEY : String := "test-secret-key"

/-- `REFRESH_TOKEN_EXPIRE_DAYS` (default 7). -/
def REFRESH_TOKEN_EXPIRE_DAYS : Int := 7

/-- A signed JWT: payload claims, expiry instant (seconds), signing key. -/
structure JwtToken where
  claims : List (String × String)
  exp : Int
  key : String
deriving DecidableEq

/-- `payload.get(k)` on the claims dict. -/
def lookupClaim (k : String) (claims : List (String × String)) : Option String :=
  (claims.find? (fun p => p.1 = k)).map Prod.snd

/-- `jwt.encode(to_encode, key, algorithm)` after `to_encode.update({"exp": expire})`. -/
def jwtEncode (data : List (String × String)) (key : String) (exp : Int) : JwtToken :=
  { claims := data, exp := exp, key := key }

/-- `jwt.decode(token, key, algorithms)` at instant `now`: succeeds iff the
token was signed with `key` and `now ≤ exp` (jose raises
`ExpiredSignatureError` when `exp < now`). -/
def jwtDecode (t : JwtToken) (key : String) (now : Int) : Option (List (String × String)) :=
  if t.key = key ∧ now ≤ t.exp then some t.claims else none

/-- `create_refresh_token(data, expires_delta=None)`: copies `data`, sets
`exp = utcnow() + (expires_delta or timedelta(days=REFRESH_TOKEN_EXPIRE_DAYS))`,
and signs with `SECRET_KEY`. -/
def create_refresh_token (data : List (String × String)) (now : Int)
    (expires_delta : Option Int) : JwtToken :=
  jwtEncode data SECRET_KEY (now + expires_delta.getD (REFRESH_TOKEN_EXPIRE_DAYS * 86400))

/-- Parse a non-empty all-digit character list as a natural number. -/
def decDigits? (cs : List Char) : Option Nat :=
  match cs with
  | [] => none
  | _ =>
    cs.foldl
      (fun acc c =>
        match acc with
        | none => none
        | some n => if c.isDigit then some (n * 10 + (c.toNat - 48)) else none)
      (some 0)

/-- Python `int(s)` on a string: optional sign followed by decimal digits;
anything else raises `ValueError`, modelled as `none`. -/
def pyInt? (s : String) : Option Int :=
  match s.data with
  | '-' :: rest => (decDigits? rest).map (fun n => -(n : Int))
  | '+' :: rest => (decDigits? rest).map (fun n => (n : Int))
  | cs => (decDigits? cs).map (fun n => (n : Int))

/-- `verify_refresh_token(token)`: decode with `SECRET_KEY`; on `JWTError`
return `None`; if the payload has no `"sub"` return `None`; otherwise
`int(user_id)`, with `ValueError` (non-numeric `sub`) also giving `None`. -/
def verify_refresh_token (t : JwtToken) (now : Int) : Option Int :=
  match jwtDecode t SECRET_KEY now with
  | none => none
  | some payload =>
    match lookupClaim "sub" payload with
    | none => none
    | some s => pyInt? s

/-! ## Unified search (src/services/search.py)

The three per-table search helpers (`search_posts`, `search_reviews`,
`search_phishing_sites`) are each a single remote supabase query plus
per-row user-name lookups; they are abstracted below as oracle
parameters returning the rows the remote database would return.  The
handler logic of `unified_search` around them is embedded faithfully —
including its very first step, `get_offset(pagination.page,
pagination.page_size)`, an attribute access on the `PaginationParams`
model, which declares only the fields `page` and `limit`. -/

/-- A row returned by `search_posts` (post columns plus its tag names). -/
structure PostHit where
  id : Int
  title : String
  content : String
  category : Option String
  created_at : String
  updated_at : Option String
  user_name : String
  view_count : Int
  like_count : Int
  dislike_count : Int
  tags : List String
deriving DecidableEq

/-- A row returned by `search_reviews` (review columns plus user_name). -/
structure ReviewHit where
  id : Int
  site_name : String
  url : String
  summary : String
  rating : ℚ
  pros : String
  cons : String
  created_at : String
  updated_at : Option String
  view_count : Int
  like_count : Int
  dislike_count : Int
  user_name : String
deriving DecidableEq

/-- A row returned by `search_phishing_sites`. -/
structure PhishingHit where
  id : Int
  url : String
  reason : String
  description : Option String
  status : String
  created_at : String
  updated_at : Option String
  view_count : Int
  like_count : Int
  dislike_count : Int
  user_name : String
deriving DecidableEq

/-- The `SearchResultItem` response model. -/
structure SearchResultItem where
  id : Int
  content_type : String
  title : String
  summary : String
  url : Option String
  created_at : String
  updated_at : Option String
  view_count : Int
  like_count : Int
  dislike_count : Int
  user_name : String
  rating : Option ℚ
  category : Option String
  tags : Option (List String)
deriving DecidableEq

/-- The per-content-type result counts (`summary` dict). -/
structure SearchSummary where
  posts : Nat
  reviews : Nat
  phishing : Nat
deriving DecidableEq

/-- The `SearchResponse` response model. -/
structure SearchResponse where
  results : List SearchResultItem
  total_count : Nat
  summary : SearchSummary
  pagination : PaginationInfo
deriving DecidableEq

/-- `format_search_results`: a post row as a unified item. -/
def format_post_item (p : PostHit) : SearchResultItem :=
  let content_text := p.content
  { id := p.id
    content_type := "post"
    title := p.title
    summary := if 200 < content_text.length then content_text.take 200 ++ "..." else content_text
    url := none
    created_at := p.created_at
    updated_at := p.updated_at
    view_count := p.view_count
    like_count := p.like_count
    dislike_count := p.dislike_count
    user_name := p.user_name
    rating := none
    category := p.category
    tags := some p.tags }

/-- `format_search_results`: a review row as a unified item. -/
def format_review_item (r : ReviewHit) : SearchResultItem :=
  { id := r.id
    content_type := "review"
    title := r.site_name
    summary := r.summary
    url := some r.url
    created_at := r.created_at
    updated_at := r.updated_at
    view_count := r.view_count
    like_count := r.like_count
    dislike_count := r.dislike_count
    user_name := r.user_name
    rating := some r.rating
    category := none
    tags := none }

/-- `format_search_results`: a phishing-site row as a unified item. -/
def format_phishing_item (s : PhishingHit) : SearchResultItem :=
  { id := s.id
    content_type := "phishing"
    title := "피싱 신고: " ++ s.url
    summary := s.description.getD s.reason
    url := some s.url
    created_at := s.created_at
    updated_at := s.updated_at
    view_count := s.view_count
    like_count := s.like_count
    dislike_count := s.dislike_count
    user_name := s.user_name
    rating := none
    category := none
    tags := none }

/-- `format_search_results(posts_data, reviews_data, phishing_data)`. -/
def format_search_results (posts : List PostHit) (reviews : List ReviewHit)
    (phishing : List PhishingHit) : List SearchResultItem :=
  posts.map format_post_item ++ reviews.map format_review_item
    ++ phishing.map format_phishing_item

/-- Python truthiness of an `Optional[str]`: `None` and `""` are falsy. -/
def optStrFalsy (o : Option String) : Bool :=
  o.isNone || o == some ""

/-- Python attribute access on a `PaginationParams` instance: the pydantic
model declares exactly the fields `page` and `limit`; any other name
raises `AttributeError`, modelled as `none`. -/
def PaginationParams.getattr (p : PaginationParams) (name : String) : Option Nat :=
  if name = "page" then some p.page
  else if name = "limit" then some p.limit
  else none

/-- The `unified_search` handler (src/services/search.py lines 254-344),
parametric in the three remote search helpers.  Its `try` block first
parses the `tags` parameter, then evaluates
`get_offset(pagination.page, pagination.page_size)`; since
`PaginationParams` has no `page_size` attribute this raises
`AttributeError`, which the `except Exception` clause converts into
`HTTPException(500, "검색 오류: ...")`. -/
def unified_search
    (search_posts :
      String → Option String → Option (List String) → String → String → Nat → Nat →
        List PostHit)
    (search_reviews :
      String → Option ℚ → Option ℚ → String → String → Nat → Nat → List ReviewHit)
    (search_phishing_sites : String → String → String → Nat → Nat → List PhishingHit)
    (q : String) (content_type : Option String) (sort_by sort_order : String)
    (min_rating max_rating : Option ℚ) (category : Option String) (tags : Option String)
    (pagination : PaginationParams) : Except (Nat × String) SearchResponse :=
  let tag_list : Option (List String) :=
    tags.map (fun t => ((t.splitOn ",").map (fun s => s.trim)).filter (fun s => s ≠ ""))
  match pagination.getattr "page_size" with
  | none =>
    .error (500, "검색 오류: PaginationParams object has no attribute page_size")
  | some page_size =>
    let offset := get_offset pagination.page page_size
    let per_type_limit := if optStrFalsy content_type then page_size / 3 else page_size
    let posts_data :=
      if content_type = some "posts" ∨ optStrFalsy content_type then
        search_posts q category tag_list sort_by sort_order per_type_limit
          (if content_type = some "posts" then offset else 0)
      else []
    let reviews_data :=
      if content_type = some "reviews" ∨ optStrFalsy content_type then
        search_reviews q min_rating max_rating sort_by sort_order per_type_limit
          (if content_type = some "reviews" then offset else 0)
      else []
    let phishing_data :=
      if content_type = some "phishing" ∨ optStrFalsy content_type then
        search_phishing_sites q sort_by sort_order per_type_limit
          (if content_type = some "phishing" then offset else 0)
      else []
    let all_results := format_search_results posts_data reviews_data phishing_data
    let sorted_results :=
      if optStrFalsy content_type then
        if sort_by = "view_count" then
          all_results.mergeSort (fun a b => b.view_count ≤ a.view_count)
        else
          all_results.mergeSort (fun a b => b.created_at ≤ a.created_at)
      else all_results
    let total_count := sorted_results.length
    let paged_results :=
      if optStrFalsy content_type then (sorted_results.drop offset).take page_size
      else sorted_results
    let summary : SearchSummary :=
      { posts := posts_data.length
        reviews := reviews_data.length
        phishing := phishing_data.length }
    let pagination_info := create_pagination_info pagination.page page_size total_count
    .ok
      { results := paged_results
        total_count := total_count
        summary := summary
        pagination := pagination_info }

/-! ## Reviews and review votes (src/services/review.py)

The `review`, `review_vote` and `user` tables are lists of rows; the
state also carries the next fresh primary keys the database would
assign.  Counts are natural numbers. -/

/-- A review vote is `"like"` or `"dislike"` (enforced by the
`VoteCreate` pattern `^(like|dislike)$`). -/
inductive VoteType where
  | like
  | dislike
deriving DecidableEq

/-- A row of the `review` table. -/
structure ReviewRow where
  id : Int
  site_name : String
  url : String
  summary : String
  rating : ℚ
  pros : String
  cons : String
  created_at : Int
  updated_at : Int
  view_count : Nat
  like_count : Nat
  dislike_count : Nat
  user_id : Option Int
deriving DecidableEq

/-- A row of the `review_vote` table. -/
structure VoteRow where
  id : Int
  review_id : Int
  user_id : Int
  vote_type : VoteType
  created_at : Int
deriving DecidableEq

/-- The review-module slice of the database: `review`, `review_vote`, and
the `user` table reduced to `(id, username)` pairs, plus the next fresh
primary keys. -/
structure ReviewDB where
  reviews : List ReviewRow
  votes : List VoteRow
  users : List (Int × String)
  next_review_id : Int
  next_vote_id : Int
deriving DecidableEq

/-- The `ReviewCreate` request body (validation aside). -/
structure ReviewCreate where
  site_name : String
  url : String
  summary : String
  rating : ℚ
  pros : String
  cons : String
deriving DecidableEq

/-- The pydantic validation of `ReviewCreate`: `rating: float =
Field(..., ge=0, le=5)`; a request whose rating is out of range is
rejected with a validation error before the handler runs. -/
def validate_ReviewCreate (r : ReviewCreate) : Except String ReviewCreate :=
  if 0 ≤ r.rating ∧ r.rating ≤ 5 then .ok r
  else .error "validation error: rating must be between 0 and 5"

/-- The `ReviewResponse` response model. -/
structure ReviewResponse where
  id : Int
  site_name : String
  url : String
  summary : String
  rating : ℚ
  pros : String
  cons : String
  created_at : Int
  updated_at : Int
  view_count : Nat
  like_count : Nat
  dislike_count : Nat
  user_id : Option Int
  user_name : String
deriving DecidableEq

/-- The `create_review` handler body (lines 85-110): insert the row with
zero counters, re-select it, look up the author's username, and build
the response. -/
def create_review (review : ReviewCreate) (uid : Int) (now : Int) (db : ReviewDB) :
    ReviewDB × ReviewResponse :=
  let rid := db.next_review_id
  let row : ReviewRow :=
    { id := rid
      site_name := review.site_name
      url := review.url
      summary := review.summary
      rating := review.rating
      pros := review.pros
      cons := review.cons
      created_at := now
      updated_at := now
      view_count := 0
      like_count := 0
      dislike_count := 0
      user_id := some uid }
  let db1 : ReviewDB :=
    { db with reviews := db.reviews ++ [row], next_review_id := rid + 1 }
  let review_row := (db1.reviews.find? (fun r => r.id = rid)).getD row
  let user_name :=
    match review_row.user_id with
    | some u =>
      match db1.users.find? (fun p => p.1 = u) with
      | some p => p.2
      | none => "알수없음"
    | none => "알수없음"
  (db1,
    { id := review_row.id
      site_name := review_row.site_name
      url := review_row.url
      summary := review_row.summary
      rating := review_row.rating
      pros := review_row.pros
      cons := review_row.cons
      created_at := review_row.created_at
      updated_at := review_row.updated_at
      view_count := review_row.view_count
      like_count := review_row.like_count
      dislike_count := review_row.dislike_count
      user_id := review_row.user_id
      user_name := user_name })

/-- The `POST /reviews` endpoint as FastAPI runs it: pydantic validation
of the request body first; only a validated body reaches the handler, so
a rejected request performs no table call and leaves the state
untouched. -/
def create_review_endpoint (raw : ReviewCreate) (uid now : Int) (db : ReviewDB) :
    ReviewDB × Except (Nat × String) ReviewResponse :=
  match validate_ReviewCreate raw with
  | .error e => (db, .error (422, e))
  | .ok r =>
    let p := create_review r uid now db
    (p.1, .ok p.2)

/-- The `VoteResponse` model. -/
structure VoteResponse where
  message : String
  like_count : Nat
  dislike_count : Nat
  user_vote_type : Option VoteType
deriving DecidableEq

/-- The existing-vote branch of `vote_review` (lines 281-300): change the
vote's type if it differs, delete it if it is the same (toggle), or
insert a fresh vote; returns the new state and the user's current vote. -/
def apply_vote (db : ReviewDB) (review_id uid : Int) (vt : VoteType) (now : Int) :
    ReviewDB × Option VoteType :=
  match db.votes.filter (fun v => v.review_id = review_id ∧ v.user_id = uid) with
  | [] =>
    ({ db with
        votes := db.votes ++
          [{ id := db.next_vote_id
             review_id := review_id
             user_id := uid
             vote_type := vt
             created_at := now }]
        next_vote_id := db.next_vote_id + 1 },
      some vt)
  | v :: _ =>
    if v.vote_type ≠ vt then
      ({ db with
          votes := db.votes.map (fun w =>
            if w.id = v.id then { w with vote_type := vt } else w) },
        some vt)
    else
      ({ db with votes := db.votes.filter (fun w => w.id ≠ v.id) }, none)

/-- `vote_review` (lines 269-318): 404 when the review does not exist;
otherwise toggle/change/insert the caller's vote, recount the likes and
dislikes from `review_vote`, and write both counters back to the review
row. -/
def vote_review (db : ReviewDB) (review_id uid : Int) (vt : VoteType) (now : Int) :
    Except (Nat × String) (ReviewDB × VoteResponse) :=
  if (db.reviews.find? (fun r => r.id = review_id)).isNone then
    .error (404, "Review not found")
  else
    let p := apply_vote db review_id uid vt now
    let db1 := p.1
    let votes := db1.votes.filter (fun v => v.review_id = review_id)
    let like_count := (votes.filter (fun v => v.vote_type = VoteType.like)).length
    let dislike_count := (votes.filter (fun v => v.vote_type = VoteType.dislike)).length
    let db2 : ReviewDB :=
      { db1 with
          reviews := db1.reviews.map (fun r =>
            if r.id = review_id then
              { r with like_count := like_count, dislike_count := dislike_count }
            else r) }
    .ok (db2,
      { message := "Vote recorded successfully"
        like_count := like_count
        dislike_count := dislike_count
        user_vote_type := p.2 })

/-- The response of `remove_review_vote`. -/
structure RemoveVoteResponse where
  message : String
  like_count : Nat
  dislike_count : Nat
deriving DecidableEq

/-- `remove_review_vote` (lines 335-367): 404 when the review does not
exist, 400 when the caller has no vote; otherwise delete the caller's
vote rows, recount, and write both counters back to the review row. -/
def remove_review_vote (db : ReviewDB) (review_id uid : Int) :
    Except (Nat × String) (ReviewDB × RemoveVoteResponse) :=
  if (db.reviews.find? (fun r => r.id = review_id)).isNone then
    .error (404, "Review not found")
  else if db.votes.filter (fun v => v.review_id = review_id ∧ v.user_id = uid) = [] then
    .error (400, "No vote found to remove")
  else
    let db1 : ReviewDB :=
      { db with
          votes := db.votes.filter (fun v => ¬(v.review_id = review_id ∧ v.user_id = uid)) }
    let votes := db1.votes.filter (fun v => v.review_id = review_id)
    let like_count := (votes.filter (fun v => v.vote_type = VoteType.like)).length
    let dislike_count := (votes.filter (fun v => v.vote_type = VoteType.dislike)).length
    let db2 : ReviewDB :=
      { db1 with
          reviews := db1.reviews.map (fun r =>
            if r.id = review_id then
              { r with like_count := like_count, dislike_count := dislike_count }
            else r) }
    .ok (db2,
      { message := "Vote removed successfully"
        like_count := like_count
        dislike_count := dislike_count })

/-! ## Accounts, cleanup, and login (src/services/auth.py)

`user` and `email_verification_token` rows; timestamps are seconds. -/

/-- `UNVERIFIED_ACCOUNT_TTL_HOURS` (default 24). -/
def UNVERIFIED_ACCOUNT_TTL_HOURS : Int := 24

/-- `CLEANUP_SCHEDULE_HOURS` (default 6). -/
def CLEANUP_SCHEDULE_HOURS : Int := 6

/-- `ACCESS_TOKEN_EXPIRE_MINUTES` (default 60). -/
def ACCESS_TOKEN_EXPIRE_MINUTES : Int := 60

/-- A row of the `user` table (`password_hash` is NULL for Google OAuth
accounts). -/
structure UserRow where
  id : Int
  username : String
  email : String
  password_hash : Option String
  created_at : Int
  role : String
  email_verified : Bool
deriving DecidableEq

/-- A row of the `email_verification_token` table. -/
structure EmailTokenRow where
  id : Int
  user_id : Int
  token : String
  expires_at : Int
deriving DecidableEq

/-- The auth-module slice of the database. -/
structure AuthDB where
  users : List UserRow
  tokens : List EmailTokenRow
deriving DecidableEq

/-- The per-user body of the cleanup loop (lines 242-264): delete the
user's `email_verification_token` rows, then delete the user row. -/
def delete_account (d : AuthDB) (e : UserRow) : AuthDB :=
  { users := d.users.filter (fun r => r.id ≠ e.id)
    tokens := d.tokens.filter (fun t => t.user_id ≠ e.id) }

/-- `cleanup_unverified_accounts` (lines 221-279): select the users with
`email_verified = False` and `created_at <` now minus
`UNVERIFIED_ACCOUNT_TTL_HOURS`, then delete each of them together with
its verification-token rows.  Returns the new state and the number of
accounts selected for deletion. -/
def cleanup_unverified_accounts (now : Int) (db : AuthDB) : AuthDB × Nat :=
  let threshold := now - UNVERIFIED_ACCOUNT_TTL_HOURS * 3600
  let expired := db.users.filter
    (fun u => u.email_verified = false ∧ u.created_at < threshold)
  (expired.foldl delete_account db, expired.length)

/-- `cleanup_expired_verification_tokens` (lines 281-310): select the
tokens with `expires_at <` now and delete each by id. -/
def cleanup_expired_verification_tokens (now : Int) (db : AuthDB) : AuthDB × Nat :=
  let expired := db.tokens.filter (fun t => t.expires_at < now)
  ({ db with
      tokens := expired.foldl (fun ts e => ts.filter (fun t => t.id ≠ e.id)) db.tokens },
    expired.length)

/-- `create_access_token(data, expires_delta=None)` (lines 87-99). -/
def create_access_token (data : List (String × String)) (now : Int)
    (expires_delta : Option Int) : JwtToken :=
  jwtEncode data SECRET_KEY (now + expires_delta.getD (ACCESS_TOKEN_EXPIRE_MINUTES * 60))

/-- The `login` handler (lines 720-776), parametric in the bcrypt check
`vp` (`pwd_context.verify`).  Select by email; no row gives 401
"Incorrect email or password"; a row whose `password_hash` is NULL makes
`verify_password` raise, which the handler's catch-all turns into the
same 401; a failing password check gives the same 401; an unverified
email gives 403; otherwise the handler returns the freshly created
access and refresh tokens. -/
def login_check_user (vp : String → String → Bool) (password : String) (now : Int)
    (u : UserRow) : Except (Nat × String) (JwtToken × JwtToken) :=
  match u.password_hash with
  | none => .error (401, "Incorrect email or password")
  | some h =>
    if vp password h = false then .error (401, "Incorrect email or password")
    else if u.email_verified = false then
      .error (403, "email_verification_required")
    else
      .ok (create_access_token [("sub", toString u.id), ("role", u.role)] now none,
        create_refresh_token [("sub", toString u.id), ("role", u.role)] now none)

/-- The `login` handler entry: select by email, then run the checks on
the first row (`user_result.data[0]`). -/
def login (vp : String → String → Bool) (db : AuthDB) (email password : String)
    (now : Int) : Except (Nat × String) (JwtToken × JwtToken) :=
  match db.users.filter (fun u => u.email = email) with
  | [] => .error (401, "Incorrect email or password")
  | u :: _ => login_check_user vp password now u

/-! ## The background cleanup scheduler (src/services/auth.py, lines 313-339)

`start_cleanup_scheduler` spawns a daemon thread running `run_cleanup`,
a `while True` loop whose iterations are embedded as a step function on
an explicit state; the infinite run is its trace, total on `ℕ`.  The
state records the wall clock, the performed sleeps, and the messages
logged by the `except` clause. -/

/-- The scheduler's world: database, current instant, the log of sleep
durations, and the exception messages logged by the loop. -/
structure SchedState where
  db : AuthDB
  now : Int
  sleeps : List Int
  logged_errors : List String
deriving DecidableEq

/-- The try-block of `run_cleanup`: run `cleanup_unverified_accounts`
then `cleanup_expired_verification_tokens`. -/
def cleanup_task (s : SchedState) : SchedState :=
  let p1 := cleanup_unverified_accounts s.now s.db
  let p2 := cleanup_expired_verification_tokens s.now p1.1
  { s with db := p2.1 }

/-- One iteration of the `while True` loop for an arbitrary fallible
try-block `body`: run it, catch and log any exception, then sleep
`CLEANUP_SCHEDULE_HOURS * 3600` seconds. -/
def run_cleanup_iteration (body : SchedState → Except String SchedState)
    (s : SchedState) : SchedState :=
  let s1 :=
    match body s with
    | .ok s2 => s2
    | .error e => { s with logged_errors := e :: s.logged_errors }
  { s1 with
      sleeps := s1.sleeps ++ [CLEANUP_SCHEDULE_HOURS * 3600]
      now := s1.now + CLEANUP_SCHEDULE_HOURS * 3600 }

/-- The loop's trace: the state after `n` iterations, total in `n`. -/
def scheduler_trace (body : SchedState → Except String SchedState)
    (s : SchedState) : Nat → SchedState
  | 0 => s
  | n + 1 => run_cleanup_iteration body (scheduler_trace body s n)

/-- The actual try-block run by `start_cleanup_scheduler`: the two
cleanup functions catch internally, so the body raises nothing. -/
def run_cleanup_body (s : SchedState) : Except String SchedState :=
  .ok (cleanup_task s)

/-! ## Private messages (src/services/message.py) -/

/-- A row of the `private_message` table. -/
structure MessageRow where
  id : Int
  sender_id : Int
  receiver_id : Int
  subject : String
  content : String
  created_at : Int
  read_at : Option Int
  is_deleted_by_sender : Bool
  is_deleted_by_receiver : Bool
deriving DecidableEq

/-- `delete_message` (lines 343-386): 404 when no row has the id; 403
when the caller is neither sender nor receiver; otherwise set the
caller's deletion flag (`is_deleted_by_sender` when the caller is the
sender, else `is_deleted_by_receiver`), and when the other side had
already deleted — i.e. after the update both flags are true — delete
the row permanently.  Failure paths leave the table untouched. -/
def delete_message_found (db : List MessageRow) (mid uid : Int) (m : MessageRow) :
    List MessageRow × Except (Nat × String) String :=
  if m.sender_id ≠ uid ∧ m.receiver_id ≠ uid then
    (db, .error (403, "Permission denied"))
  else
    let db1 := db.map (fun r =>
      if r.id = mid then
        (if m.sender_id = uid then { r with is_deleted_by_sender := true }
         else { r with is_deleted_by_receiver := true })
      else r)
    if (m.sender_id = uid ∧ m.is_deleted_by_receiver = true) ∨
        (¬m.sender_id = uid ∧ m.receiver_id = uid ∧ m.is_deleted_by_sender = true) then
      (db1.filter (fun r => r.id ≠ mid), .ok "Message permanently deleted")
    else
      (db1, .ok "Message deleted successfully")

/-- `delete_message` entry: fetch the rows with the id; 404 when there is
none, else run the deletion logic on `message_result.data[0]`. -/
def delete_message (db : List MessageRow) (mid uid : Int) :
    List MessageRow × Except (Nat × String) String :=
  match db.filter (fun m => m.id = mid) with
  | [] => (db, .error (404, "Message not found"))
  | m :: _ => delete_message_found db mid uid m

/-! ## Error dispatch (src/main.py)

FastAPI semantics: a handler either returns a body, raises an
`HTTPException` carrying a status code and a detail, or raises some
other exception, which reaches the application-level handler
registered with `app.exception_handler(Exception)`. -/

/-- The three ways a handler invocation can end. -/
inductive Outcome where
  | ok (body : String)
  | httpExc (status : Nat) (detail : String)
  | exc (msg : String)
deriving DecidableEq

/-- The HTTP response eventually sent to the client. -/
structure HTTPResponse where
  status : Nat
  detail : String
  error : Option String
deriving DecidableEq

/-- `global_exception_handler` (src/main.py lines 39-44): a 500 JSON
response with `"detail": "Internal server error"` and the exception's
text under `"error"`. -/
def global_exception_handler (exc_msg : String) : HTTPResponse :=
  { status := 500, detail := "Internal server error", error := some exc_msg }

/-- The framework's dispatch of a handler outcome into a response:
successful returns become 200, a raised `HTTPException` becomes its own
status and detail, and any other exception goes through
`global_exception_handler`. -/
def respond : Outcome → HTTPResponse
  | .ok b => { status := 200, detail := b, error := none }
  | .httpExc s d => { status := s, detail := d, error := none }
  | .exc m => global_exception_handler m

/-- The outcome of the `login` handler: it either returns tokens or
raises an `HTTPException`; its catch-all converts every other exception
into a 401, so no raw exception can escape it. -/
def login_outcome (vp : String → String → Bool) (db : AuthDB)
    (email password : String) (now : Int) : Outcome :=
  match login vp db email password now with
  | .ok _ => .ok "login ok"
  | .error (s, d) => .httpExc s d

/-! ## Theorems for C1 and C4 -/

/-- Ceiling division on `ℕ` is the ceiling of the exact division. -/
theorem natCeilDiv_eq_ceil_ratDiv (a b : Nat) (hb : 0 < b) :
    a ⌈/⌉ b = ⌈(a : ℚ) / (b : ℚ)⌉₊ := by
  have hbq : (0 : ℚ) < (b : ℚ) := by exact_mod_cast hb
  have key : ∀ n : Nat, a ⌈/⌉ b ≤ n ↔ ⌈(a : ℚ) / (b : ℚ)⌉₊ ≤ n := by
    intro n
    rw [ceilDiv_le_iff_le_mul hb, Nat.ceil_le, div_le_iff₀ hbq]
    constructor
    · intro h
      have h2 : (a : ℚ) ≤ ((b * n : ℕ) : ℚ) := by exact_mod_cast h
      have h3 : ((b * n : ℕ) : ℚ) = (n : ℚ) * (b : ℚ) := by push_cast; ring
      exact h3 ▸ h2
    · intro h
      have h2 : (a : ℚ) ≤ ((b * n : ℕ) : ℚ) := by push_cast; linarith
      exact_mod_cast h2
  exact le_antisymm ((key _).mpr le_rfl) ((key _).mp le_rfl)

/-- C4: for `page ≥ 1`, `limit ≥ 1`, `total_count ≥ 0`,
`create_pagination_info` returns `total_pages = ceil(total_count / limit)`
when `total_count > 0` and `1` when `total_count = 0`,
`has_next = (page < total_pages)`, `has_previous = (page > 1)`, echoes
`current_page = page` and `total_count`, and
`get_offset page limit = (page - 1) * limit`. -/
theorem create_pagination_info_spec (page limit total_count : Nat)
    (hpage : 1 ≤ page) (hlimit : 1 ≤ limit) :
    (0 < total_count →
      (create_pagination_info page limit total_count).total_pages
        = ⌈(total_count : ℚ) / (limit : ℚ)⌉₊) ∧
    (total_count = 0 → (create_pagination_info page limit total_count).total_pages = 1) ∧
    (create_pagination_info page limit total_count).has_next
      = decide (page < (create_pagination_info page limit total_count).total_pages) ∧
    (create_pagination_info page limit total_count).has_previous = decide (1 < page) ∧
    (create_pagination_info page limit total_count).current_page = page ∧
    (create_pagination_info page limit total_count).total_count = total_count ∧
    get_offset page limit = (page - 1) * limit := by
  refine ⟨?_, ?_, ?_, ?_, ?_, ?_, ?_⟩
  · intro hpos
    simp only [create_pagination_info, if_pos hpos]
    exact natCeilDiv_eq_ceil_ratDiv total_count limit hlimit
  · intro hz
    simp [create_pagination_info, hz]
  · rfl
  · rfl
  · rfl
  · rfl
  · rfl

/-- Witness for C4 at `page = 2`, `limit = 10`, `total_count = 25`
(where `ceil(25/10) = 3`). -/
theorem create_pagination_info_spec_witness :
    1 ≤ 2 ∧ 1 ≤ 10 ∧
    ((0 < 25 →
      (create_pagination_info 2 10 25).total_pages = ⌈(25 : ℚ) / (10 : ℚ)⌉₊) ∧
     (create_pagination_info 2 10 25).total_pages = 3 ∧
     (create_pagination_info 2 10 25).has_next = true ∧
     (create_pagination_info 2 10 25).has_previous = true ∧
     get_offset 2 10 = 10) :=
  ⟨by decide, by decide,
    (create_pagination_info_spec 2 10 25 (by decide) (by decide)).1,
    by decide, by decide, by decide, by decide⟩

/-- C1: a refresh token freshly created from a payload whose `"sub"` is the
decimal string of a user id verifies, before its expiry, to that id; and a
token signed with a key other than `SECRET_KEY`, an expired token, or a
token without a `"sub"` claim all verify to `none`. -/
theorem verify_refresh_token_spec :
    (∀ (data : List (String × String)) (s : String) (uid : Int)
        (delta : Option Int) (tIssue tCheck : Int),
      lookupClaim "sub" data = some s → pyInt? s = some uid →
      tCheck < (create_refresh_token data tIssue delta).exp →
      verify_refresh_token (create_refresh_token data tIssue delta) tCheck = some uid) ∧
    (∀ (t : JwtToken) (now : Int), t.key ≠ SECRET_KEY →
      verify_refresh_token t now = none) ∧
    (∀ (t : JwtToken) (now : Int), t.exp < now →
      verify_refresh_token t now = none) ∧
    (∀ (t : JwtToken) (now : Int), lookupClaim "sub" t.claims = none →
      verify_refresh_token t now = none) := by
  refine ⟨?_, ?_, ?_, ?_⟩
  · intro data s uid delta tIssue tCheck hsub hparse hexp
    unfold verify_refresh_token jwtDecode
    have hkey : (create_refresh_token data tIssue delta).key = SECRET_KEY := rfl
    rw [if_pos ⟨hkey, le_of_lt hexp⟩]
    have hclaims : (create_refresh_token data tIssue delta).claims = data := rfl
    simp only [hclaims, hsub, hparse]
  · intro t now hkey
    unfold verify_refresh_token jwtDecode
    rw [if_neg (fun h => hkey h.1)]
  · intro t now hexp
    unfold verify_refresh_token jwtDecode
    rw [if_neg (fun h => absurd h.2 (not_le.mpr hexp))]
  · intro t now hsub
    unfold verify_refresh_token jwtDecode
    by_cases h : t.key = SECRET_KEY ∧ now ≤ t.exp
    · rw [if_pos h]
      simp only [hsub]
    · rw [if_neg h]

/-- Witness for C1: a token for user 42 issued at time 0 verifies at time
1000; a wrong-key token, an expired token, and a sub-less token all fail. -/
theorem verify_refresh_token_spec_witness :
    lookupClaim "sub" [("sub", "42"), ("role", "user")] = some "42" ∧
    pyInt? "42" = some 42 ∧
    (1000 : Int) < (create_refresh_token [("sub", "42"), ("role", "user")] 0 none).exp ∧
    verify_refresh_token (create_refresh_token [("sub", "42"), ("role", "user")] 0 none)
      1000 = some 42 ∧
    (⟨[("sub", "42")], 604800, "other-key"⟩ : JwtToken).key ≠ SECRET_KEY ∧
    verify_refresh_token ⟨[("sub", "42")], 604800, "other-key"⟩ 1000 = none ∧
    (⟨[("sub", "42")], 604800, SECRET_KEY⟩ : JwtToken).exp < 999999 ∧
    verify_refresh_token ⟨[("sub", "42")], 604800, SECRET_KEY⟩ 999999 = none ∧
    lookupClaim "sub" [("role", "user")] = none ∧
    verify_refresh_token ⟨[("role", "user")], 604800, SECRET_KEY⟩ 1000 = none :=
  ⟨by decide, by decide, by decide,
    verify_refresh_token_spec.1 [("sub", "42"), ("role", "user")] "42" 42 none 0 1000
      (by decide) (by decide) (by decide),
    by decide,
    verify_refresh_token_spec.2.1 ⟨[("sub", "42")], 604800, "other-key"⟩ 1000 (by decide),
    by decide,
    verify_refresh_token_spec.2.2.1 ⟨[("sub", "42")], 604800, SECRET_KEY⟩ 999999 (by decide),
    by decide,
    verify_refresh_token_spec.2.2.2 ⟨[("role", "user")], 604800, SECRET_KEY⟩ 1000 (by decide)⟩

/-- C2 (refuted — code bug): every call to `unified_search`, in particular
any search with a valid query and pagination accepted by
`PaginationParams`, fails with an HTTP 500 error response: the handler's
first step reads `pagination.page_size`, an attribute the
`PaginationParams` model does not declare, so `AttributeError` is raised
and converted by the handler's `except` clause into
`HTTPException(500, "검색 오류: ...")`.  No `SearchResponse` is ever
returned. -/
theorem unified_search_always_errors
    (search_posts :
      String → Option String → Option (List String) → String → String → Nat → Nat →
        List PostHit)
    (search_reviews :
      String → Option ℚ → Option ℚ → String → String → Nat → Nat → List ReviewHit)
    (search_phishing_sites : String → String → String → Nat → Nat → List PhishingHit)
    (q : String) (content_type : Option String) (sort_by sort_order : String)
    (min_rating max_rating : Option ℚ) (category : Option String) (tags : Option String)
    (pagination : PaginationParams) :
    unified_search search_posts search_reviews search_phishing_sites q content_type
      sort_by sort_order min_rating max_rating category tags pagination
      = .error (500, "검색 오류: PaginationParams object has no attribute page_size") := by
  rfl

/-- Counting by vote type inside the rows already filtered to one review
equals counting rows filtered by both conditions at once. -/
theorem length_filter_filter_votes (l : List VoteRow) (rid : Int) (vt : VoteType) :
    ((l.filter (fun v => v.review_id = rid)).filter (fun v => v.vote_type = vt)).length
      = (l.filter (fun v => v.review_id = rid ∧ v.vote_type = vt)).length := by
  rw [List.filter_filter]
  congr 1
  apply List.filter_congr
  intro a _
  by_cases h1 : a.review_id = rid <;> by_cases h2 : a.vote_type = vt <;> simp [h1, h2]

/-- After writing `like_count`/`dislike_count` into every review row with
the given id, each such row carries exactly those counters. -/
theorem review_counts_after_set (reviewsL : List ReviewRow) (rid : Int) (lc dc : Nat) :
    ∀ r ∈ reviewsL.map (fun r =>
        if r.id = rid then { r with like_count := lc, dislike_count := dc } else r),
      r.id = rid → r.like_count = lc ∧ r.dislike_count = dc := by
  intro r hr hid
  rcases List.mem_map.mp hr with ⟨a, _, rfl⟩
  by_cases h : a.id = rid
  · rw [if_pos h]
    exact ⟨rfl, rfl⟩
  · rw [if_neg h] at hid
    exact absurd hid h

/-- C3: after every successful `vote_review` or `remove_review_vote`, the
stored review row's `like_count` equals the number of `review_vote` rows
for that review with type `like`, and `dislike_count` the number with
type `dislike` — in all branches, including the toggle that removes the
vote. -/
theorem review_vote_count_invariant :
    (∀ (db : ReviewDB) (rid uid : Int) (vt : VoteType) (now : Int)
        (db2 : ReviewDB) (resp : VoteResponse),
      vote_review db rid uid vt now = .ok (db2, resp) →
      ∀ r ∈ db2.reviews, r.id = rid →
        r.like_count
          = (db2.votes.filter
              (fun v => v.review_id = rid ∧ v.vote_type = VoteType.like)).length ∧
        r.dislike_count
          = (db2.votes.filter
              (fun v => v.review_id = rid ∧ v.vote_type = VoteType.dislike)).length) ∧
    (∀ (db : ReviewDB) (rid uid : Int) (db2 : ReviewDB) (resp : RemoveVoteResponse),
      remove_review_vote db rid uid = .ok (db2, resp) →
      ∀ r ∈ db2.reviews, r.id = rid →
        r.like_count
          = (db2.votes.filter
              (fun v => v.review_id = rid ∧ v.vote_type = VoteType.like)).length ∧
        r.dislike_count
          = (db2.votes.filter
              (fun v => v.review_id = rid ∧ v.vote_type = VoteType.dislike)).length) := by
  constructor
  · intro db rid uid vt now db2 resp h
    unfold vote_review at h
    by_cases hn : (db.reviews.find? (fun r => r.id = rid)).isNone = true
    · rw [if_pos hn] at h
      exact Except.noConfusion h
    · rw [if_neg hn] at h
      simp only [Except.ok.injEq, Prod.mk.injEq] at h
      obtain ⟨hdb, -⟩ := h
      subst hdb
      intro r hr hid
      have hset := review_counts_after_set _ rid _ _ r hr hid
      refine ⟨?_, ?_⟩
      · rw [hset.1, ← length_filter_filter_votes]
      · rw [hset.2, ← length_filter_filter_votes]
  · intro db rid uid db2 resp h
    unfold remove_review_vote at h
    by_cases hn : (db.reviews.find? (fun r => r.id = rid)).isNone = true
    · rw [if_pos hn] at h
      exact Except.noConfusion h
    · rw [if_neg hn] at h
      by_cases hv : db.votes.filter (fun v => v.review_id = rid ∧ v.user_id = uid) = []
      · rw [if_pos hv] at h
        exact Except.noConfusion h
      · rw [if_neg hv] at h
        simp only [Except.ok.injEq, Prod.mk.injEq] at h
        obtain ⟨hdb, -⟩ := h
        subst hdb
        intro r hr hid
        have hset := review_counts_after_set _ rid _ _ r hr hid
        refine ⟨?_, ?_⟩
        · rw [hset.1, ← length_filter_filter_votes]
        · rw [hset.2, ← length_filter_filter_votes]

/-- Witness for C3: on a one-review database, user 5 casting a like
yields a row with `like_count = 1` matching the single vote row; removing
the vote brings the counters back to the vote table's counts. -/
theorem review_vote_count_invariant_witness :
    vote_review
        ⟨[⟨1, "site", "http://s", "sum", 3, "p", "c", 0, 0, 0, 0, 0, some 5⟩],
          [], [(5, "alice")], 2, 1⟩ 1 5 VoteType.like 100
      = .ok
          (⟨[⟨1, "site", "http://s", "sum", 3, "p", "c", 0, 0, 0, 1, 0, some 5⟩],
             [⟨1, 1, 5, VoteType.like, 100⟩], [(5, "alice")], 2, 2⟩,
           ⟨"Vote recorded successfully", 1, 0, some VoteType.like⟩) ∧
    (⟨1, "site", "http://s", "sum", 3, "p", "c", 0, 0, 0, 1, 0, some 5⟩ : ReviewRow) ∈
      ([⟨1, "site", "http://s", "sum", 3, "p", "c", 0, 0, 0, 1, 0, some 5⟩] :
        List ReviewRow) ∧
    (1 :
      Nat) = ([⟨1, 1, 5, VoteType.like, 100⟩] : List VoteRow).length ∧
    ((⟨1, "site", "http://s", "sum", 3, "p", "c", 0, 0, 0, 1, 0, some 5⟩ :
        ReviewRow).like_count
      = ((⟨[⟨1, "site", "http://s", "sum", 3, "p", "c", 0, 0, 0, 1, 0, some 5⟩],
             [⟨1, 1, 5, VoteType.like, 100⟩], [(5, "alice")], 2, 2⟩ : ReviewDB).votes.filter
          (fun v => v.review_id = 1 ∧ v.vote_type = VoteType.like)).length ∧
     (⟨1, "site", "http://s", "sum", 3, "p", "c", 0, 0, 0, 1, 0, some 5⟩ :
        ReviewRow).dislike_count
      = ((⟨[⟨1, "site", "http://s", "sum", 3, "p", "c", 0, 0, 0, 1, 0, some 5⟩],
             [⟨1, 1, 5, VoteType.like, 100⟩], [(5, "alice")], 2, 2⟩ : ReviewDB).votes.filter
          (fun v => v.review_id = 1 ∧ v.vote_type = VoteType.dislike)).length) :=
  ⟨by decide, by decide, by decide,
    review_vote_count_invariant.1
      ⟨[⟨1, "site", "http://s", "sum", 3, "p", "c", 0, 0, 0, 0, 0, some 5⟩],
        [], [(5, "alice")], 2, 1⟩ 1 5 VoteType.like 100
      ⟨[⟨1, "site", "http://s", "sum", 3, "p", "c", 0, 0, 0, 1, 0, some 5⟩],
        [⟨1, 1, 5, VoteType.like, 100⟩], [(5, "alice")], 2, 2⟩
      ⟨"Vote recorded successfully", 1, 0, some VoteType.like⟩
      (by decide)
      ⟨1, "site", "http://s", "sum", 3, "p", "c", 0, 0, 0, 1, 0, some 5⟩
      (by decide) (by decide)⟩

/-- C7: a `ReviewCreate` body passes pydantic validation exactly when
`0 ≤ rating ≤ 5`; an out-of-range rating is rejected before the handler
body runs, so the database state is returned untouched (no table call)
with a validation error. -/
theorem review_rating_validation_spec (raw : ReviewCreate) (uid now : Int) (db : ReviewDB) :
    ((validate_ReviewCreate raw = .ok raw) ↔ (0 ≤ raw.rating ∧ raw.rating ≤ 5)) ∧
    (¬(0 ≤ raw.rating ∧ raw.rating ≤ 5) →
      (create_review_endpoint raw uid now db).1 = db ∧
      (create_review_endpoint raw uid now db).2
        = .error (422, "validation error: rating must be between 0 and 5")) := by
  constructor
  · constructor
    · intro h
      by_contra hc
      unfold validate_ReviewCreate at h
      rw [if_neg hc] at h
      exact Except.noConfusion h
    · intro h
      unfold validate_ReviewCreate
      rw [if_pos h]
  · intro hc
    unfold create_review_endpoint validate_ReviewCreate
    rw [if_neg hc]
    exact ⟨rfl, rfl⟩

/-- Witness for C7: rating 6 is rejected with the state unchanged;
rating 3 passes validation. -/
theorem review_rating_validation_spec_witness :
    ¬((0 : ℚ) ≤ 6 ∧ (6 : ℚ) ≤ 5) ∧
    (create_review_endpoint ⟨"s", "http://u", "m", 6, "p", "c"⟩ 1 0 ⟨[], [], [], 1, 1⟩).1
      = ⟨[], [], [], 1, 1⟩ ∧
    (create_review_endpoint ⟨"s", "http://u", "m", 6, "p", "c"⟩ 1 0 ⟨[], [], [], 1, 1⟩).2
      = .error (422, "validation error: rating must be between 0 and 5") ∧
    validate_ReviewCreate ⟨"s", "http://u", "m", 3, "p", "c"⟩
      = .ok ⟨"s", "http://u", "m", 3, "p", "c"⟩ :=
  ⟨by decide,
    ((review_rating_validation_spec ⟨"s", "http://u", "m", 6, "p", "c"⟩ 1 0
        ⟨[], [], [], 1, 1⟩).2 (by decide)).1,
    ((review_rating_validation_spec ⟨"s", "http://u", "m", 6, "p", "c"⟩ 1 0
        ⟨[], [], [], 1, 1⟩).2 (by decide)).2,
    (review_rating_validation_spec ⟨"s", "http://u", "m", 3, "p", "c"⟩ 1 0
        ⟨[], [], [], 1, 1⟩).1.mpr (by decide)⟩

/-- A user row survives the cleanup's deletion loop iff it was present
and its id differs from every deleted account's id. -/
theorem mem_users_foldl_delete (es : List UserRow) (db : AuthDB) (r : UserRow) :
    r ∈ (es.foldl delete_account db).users ↔
      r ∈ db.users ∧ ∀ e ∈ es, r.id ≠ e.id := by
  induction es generalizing db with
  | nil => simp
  | cons e es ih =>
    rw [List.foldl_cons, ih]
    simp only [delete_account, List.mem_filter, decide_eq_true_eq, List.mem_cons]
    constructor
    · rintro ⟨⟨hmem, hne⟩, hall⟩
      exact ⟨hmem, fun x hx => hx.elim (fun hxe => hxe ▸ hne) (hall x)⟩
    · rintro ⟨hmem, hall⟩
      exact ⟨⟨hmem, hall e (Or.inl rfl)⟩, fun x hx => hall x (Or.inr hx)⟩

/-- A token row survives the cleanup's deletion loop iff it was present
and belongs to none of the deleted accounts. -/
theorem mem_tokens_foldl_delete (es : List UserRow) (db : AuthDB) (t : EmailTokenRow) :
    t ∈ (es.foldl delete_account db).tokens ↔
      t ∈ db.tokens ∧ ∀ e ∈ es, t.user_id ≠ e.id := by
  induction es generalizing db with
  | nil => simp
  | cons e es ih =>
    rw [List.foldl_cons, ih]
    simp only [delete_account, List.mem_filter, decide_eq_true_eq, List.mem_cons]
    constructor
    · rintro ⟨⟨hmem, hne⟩, hall⟩
      exact ⟨hmem, fun x hx => hx.elim (fun hxe => hxe ▸ hne) (hall x)⟩
    · rintro ⟨hmem, hall⟩
      exact ⟨⟨hmem, hall e (Or.inl rfl)⟩, fun x hx => hall x (Or.inr hx)⟩

/-- C8: assuming distinct user-row ids (the table's primary key),
`cleanup_unverified_accounts` keeps every verified user row and every
unverified row created within the TTL window; a user row disappears only
if it was unverified and older than the TTL threshold; nothing is added;
and a token row disappears only if its owner is such an expired
unverified account. -/
theorem cleanup_unverified_accounts_spec (now : Int) (db : AuthDB)
    (hids : (db.users.map (fun u => u.id)).Nodup) :
    (∀ u ∈ db.users, u.email_verified = true →
      u ∈ ((cleanup_unverified_accounts now db).1).users) ∧
    (∀ u ∈ db.users, now - UNVERIFIED_ACCOUNT_TTL_HOURS * 3600 ≤ u.created_at →
      u ∈ ((cleanup_unverified_accounts now db).1).users) ∧
    (∀ u ∈ db.users, u ∉ ((cleanup_unverified_accounts now db).1).users →
      u.email_verified = false ∧
        u.created_at < now - UNVERIFIED_ACCOUNT_TTL_HOURS * 3600) ∧
    (∀ u ∈ ((cleanup_unverified_accounts now db).1).users, u ∈ db.users) ∧
    (∀ t ∈ db.tokens, t ∉ ((cleanup_unverified_accounts now db).1).tokens →
      ∃ u ∈ db.users, u.id = t.user_id ∧ u.email_verified = false ∧
        u.created_at < now - UNVERIFIED_ACCOUNT_TTL_HOURS * 3600) := by
  have hinj := List.inj_on_of_nodup_map hids
  have hexp : ∀ e ∈ db.users.filter
      (fun u => u.email_verified = false ∧
        u.created_at < now - UNVERIFIED_ACCOUNT_TTL_HOURS * 3600),
      e ∈ db.users ∧ e.email_verified = false ∧
        e.created_at < now - UNVERIFIED_ACCOUNT_TTL_HOURS * 3600 := by
    intro e he
    have h := List.mem_filter.mp he
    exact ⟨h.1, of_decide_eq_true h.2⟩
  refine ⟨?_, ?_, ?_, ?_, ?_⟩
  · intro u hu hver
    rw [cleanup_unverified_accounts, mem_users_foldl_delete]
    refine ⟨hu, fun e he hid => ?_⟩
    obtain ⟨hmem, hunv, -⟩ := hexp e he
    have heq := hinj hu hmem hid
    rw [heq] at hver
    rw [hver] at hunv
    exact Bool.noConfusion hunv
  · intro u hu hfresh
    rw [cleanup_unverified_accounts, mem_users_foldl_delete]
    refine ⟨hu, fun e he hid => ?_⟩
    obtain ⟨hmem, -, hold⟩ := hexp e he
    have := hinj hu hmem hid
    rw [this] at hfresh
    exact absurd hold (not_lt.mpr hfresh)
  · intro u hu hnot
    by_contra hc
    apply hnot
    rw [cleanup_unverified_accounts, mem_users_foldl_delete]
    refine ⟨hu, fun e he hid => ?_⟩
    obtain ⟨hmem, hunv, hold⟩ := hexp e he
    have heq := hinj hu hmem hid
    exact hc (heq ▸ ⟨hunv, hold⟩)
  · intro u hu
    rw [cleanup_unverified_accounts, mem_users_foldl_delete] at hu
    exact hu.1
  · intro t ht hnot
    by_contra hc
    apply hnot
    rw [cleanup_unverified_accounts, mem_tokens_foldl_delete]
    refine ⟨ht, fun e he hid => ?_⟩
    obtain ⟨hmem, hunv, hold⟩ := hexp e he
    exact hc ⟨e, hmem, hid.symm, hunv, hold⟩

/-- Test fixture for C8: a verified old account. -/
def annRow : UserRow := ⟨1, "ann", "a@x.io", some "h1", 0, "user", true⟩

/-- Test fixture for C8: an unverified account past the TTL. -/
def bobRow : UserRow := ⟨2, "bob", "b@x.io", some "h2", 0, "user", false⟩

/-- Test fixture for C8: an unverified account inside the TTL window. -/
def catRow : UserRow := ⟨3, "cat", "c@x.io", some "h3", 999999, "user", false⟩

/-- Test fixture for C8: the three accounts with tokens for bob and cat. -/
def cleanupTestDB : AuthDB :=
  ⟨[annRow, bobRow, catRow], [⟨10, 2, "t2", 2000000⟩, ⟨11, 3, "t3", 2000000⟩]⟩

/-- Witness for C8 on a three-user database at `now = 1000000` (TTL
threshold 913600): the verified old account and the fresh unverified
account survive with their tokens; only the stale unverified account
and its token are deleted. -/
theorem cleanup_unverified_accounts_spec_witness :
    ((cleanupTestDB.users.map (fun u => u.id)).Nodup) ∧
    annRow ∈ ((cleanup_unverified_accounts 1000000 cleanupTestDB).1).users ∧
    catRow ∈ ((cleanup_unverified_accounts 1000000 cleanupTestDB).1).users ∧
    (cleanup_unverified_accounts 1000000 cleanupTestDB).1
      = ⟨[annRow, catRow], [⟨11, 3, "t3", 2000000⟩]⟩ :=
  ⟨by decide,
    (cleanup_unverified_accounts_spec 1000000 cleanupTestDB (by decide)).1
      annRow (by decide) (by decide),
    ((cleanup_unverified_accounts_spec 1000000 cleanupTestDB (by decide)).2).1
      catRow (by decide) (by decide),
    by decide⟩

/-- C9: every authentication failure of `login` — no user row with the
given email, or a stored hash the supplied password does not match
(including the NULL hash of an OAuth account, where `verify_password`
raises and the catch-all answers identically) — produces the same
response: HTTP 401 with detail "Incorrect email or password". -/
theorem login_uniform_401 (vp : String → String → Bool) (db : AuthDB)
    (email password : String) (now : Int) :
    (db.users.filter (fun u => u.email = email) = [] →
      login vp db email password now = .error (401, "Incorrect email or password")) ∧
    (∀ (u : UserRow) (rest : List UserRow),
      db.users.filter (fun u => u.email = email) = u :: rest →
      (∀ h, u.password_hash = some h → vp password h = false) →
      login vp db email password now = .error (401, "Incorrect email or password")) := by
  constructor
  · intro hnone
    unfold login
    rw [hnone]
  · intro u rest hfil hmismatch
    unfold login
    rw [hfil]
    show login_check_user vp password now u = .error (401, "Incorrect email or password")
    unfold login_check_user
    cases hph : u.password_hash with
    | none => rfl
    | some h =>
      simp [hmismatch h hph]

/-- Witness for C9: with equality as the password check, an unknown email
and a wrong password for a known email both yield exactly
`401 "Incorrect email or password"`. -/
theorem login_uniform_401_witness :
    (([⟨1, "ann", "a@x.io", some "pw", 0, "user", true⟩] : List UserRow).filter
        (fun u => u.email = "z@x.io") = []) ∧
    login (fun p h => p == h) ⟨[⟨1, "ann", "a@x.io", some "pw", 0, "user", true⟩], []⟩
        "z@x.io" "pw" 0 = .error (401, "Incorrect email or password") ∧
    (([⟨1, "ann", "a@x.io", some "pw", 0, "user", true⟩] : List UserRow).filter
        (fun u => u.email = "a@x.io")
      = [⟨1, "ann", "a@x.io", some "pw", 0, "user", true⟩]) ∧
    login (fun p h => p == h) ⟨[⟨1, "ann", "a@x.io", some "pw", 0, "user", true⟩], []⟩
        "a@x.io" "wrong" 0 = .error (401, "Incorrect email or password") :=
  ⟨by decide,
    (login_uniform_401 (fun p h => p == h)
      ⟨[⟨1, "ann", "a@x.io", some "pw", 0, "user", true⟩], []⟩ "z@x.io" "pw" 0).1
      (by decide),
    by decide,
    (login_uniform_401 (fun p h => p == h)
      ⟨[⟨1, "ann", "a@x.io", some "pw", 0, "user", true⟩], []⟩ "a@x.io" "wrong" 0).2
      ⟨1, "ann", "a@x.io", some "pw", 0, "user", true⟩ [] (by decide)
      (by intro h heq; injection heq with h2; subst h2; decide)⟩

/-- C5: the cleanup loop never terminates — after every iteration the
trace continues with another `run_cleanup_iteration`; an iteration whose
try-block succeeds keeps its state and then sleeps
`CLEANUP_SCHEDULE_HOURS * 3600` seconds; an iteration whose try-block
raises any exception catches it, logs it, and still sleeps — nothing
propagates; the scheduler's actual try-block never raises, and each
iteration runs `cleanup_unverified_accounts` then
`cleanup_expired_verification_tokens`. -/
theorem start_cleanup_scheduler_loop_spec :
    (∀ (body : SchedState → Except String SchedState) (s : SchedState) (n : Nat),
      scheduler_trace body s (n + 1)
        = run_cleanup_iteration body (scheduler_trace body s n)) ∧
    (∀ (body : SchedState → Except String SchedState) (s s2 : SchedState),
      body s = .ok s2 →
      run_cleanup_iteration body s
        = { s2 with
            sleeps := s2.sleeps ++ [CLEANUP_SCHEDULE_HOURS * 3600]
            now := s2.now + CLEANUP_SCHEDULE_HOURS * 3600 }) ∧
    (∀ (body : SchedState → Except String SchedState) (s : SchedState) (e : String),
      body s = .error e →
      run_cleanup_iteration body s
        = { s with
            logged_errors := e :: s.logged_errors
            sleeps := s.sleeps ++ [CLEANUP_SCHEDULE_HOURS * 3600]
            now := s.now + CLEANUP_SCHEDULE_HOURS * 3600 }) ∧
    (∀ s : SchedState, run_cleanup_body s = .ok (cleanup_task s)) ∧
    (∀ s : SchedState,
      (cleanup_task s).db
        = (cleanup_expired_verification_tokens s.now
            (cleanup_unverified_accounts s.now s.db).1).1) := by
  refine ⟨fun _ _ _ => rfl, ?_, ?_, fun _ => rfl, fun _ => rfl⟩
  · intro body s s2 h
    unfold run_cleanup_iteration
    rw [h]
  · intro body s e h
    unfold run_cleanup_iteration
    rw [h]

/-- Witness for C5: on the empty world, the real body succeeds and the
iteration just sleeps 21600 seconds; a body that throws gets its message
logged and the loop still sleeps and continues. -/
theorem start_cleanup_scheduler_loop_spec_witness :
    run_cleanup_body ⟨⟨[], []⟩, 0, [], []⟩
      = .ok (cleanup_task ⟨⟨[], []⟩, 0, [], []⟩) ∧
    run_cleanup_iteration run_cleanup_body ⟨⟨[], []⟩, 0, [], []⟩
      = ⟨⟨[], []⟩, 21600, [21600], []⟩ ∧
    run_cleanup_iteration (fun _ => .error "boom") ⟨⟨[], []⟩, 0, [], []⟩
      = ⟨⟨[], []⟩, 21600, [21600], ["boom"]⟩ ∧
    scheduler_trace run_cleanup_body ⟨⟨[], []⟩, 0, [], []⟩ 2
      = run_cleanup_iteration run_cleanup_body
          (scheduler_trace run_cleanup_body ⟨⟨[], []⟩, 0, [], []⟩ 1) :=
  ⟨rfl,
    (start_cleanup_scheduler_loop_spec.2.1 run_cleanup_body ⟨⟨[], []⟩, 0, [], []⟩
      (cleanup_task ⟨⟨[], []⟩, 0, [], []⟩) rfl).trans (by decide),
    (start_cleanup_scheduler_loop_spec.2.2.1 (fun _ => .error "boom")
      ⟨⟨[], []⟩, 0, [], []⟩ "boom" rfl).trans (by decide),
    start_cleanup_scheduler_loop_spec.1 run_cleanup_body ⟨⟨[], []⟩, 0, [], []⟩ 1⟩

/-- Rows whose id was just filtered away cannot be selected by that id. -/
theorem filter_id_of_removed (l : List MessageRow) (mid : Int) :
    (l.filter (fun r => r.id ≠ mid)).filter (fun r => r.id = mid) = [] := by
  rw [List.filter_eq_nil_iff]
  intro a ha
  have h := List.mem_filter.mp ha
  simp only [decide_eq_true_eq] at h ⊢
  exact h.2

/-- A list containing a row with the id selects a nonempty slice by it. -/
theorem filter_id_mem_ne_nil (l : List MessageRow) (mid : Int) (x : MessageRow)
    (hx : x ∈ l) (hid : x.id = mid) : l.filter (fun r => r.id = mid) ≠ [] := by
  intro hempty
  rw [List.filter_eq_nil_iff] at hempty
  exact hempty x hx (by simp [hid])

/-- C10: with `m` the fetched message row, a caller who is neither sender
nor receiver gets 403 and the table is unchanged; the sender's deletion
sets only `is_deleted_by_sender` on the row (the receiver's only
`is_deleted_by_receiver`), and the row is permanently removed exactly
when, after that update, both deletion flags are true. -/
theorem delete_message_spec (db : List MessageRow) (mid uid : Int)
    (m : MessageRow) (rest : List MessageRow)
    (hm : db.filter (fun x => x.id = mid) = m :: rest) :
    (m.sender_id ≠ uid ∧ m.receiver_id ≠ uid →
      delete_message db mid uid = (db, .error (403, "Permission denied"))) ∧
    (m.sender_id = uid →
      delete_message db mid uid =
        (if m.is_deleted_by_receiver = true then
          ((db.map (fun r =>
              if r.id = mid then { r with is_deleted_by_sender := true } else r)).filter
            (fun r => r.id ≠ mid), .ok "Message permanently deleted")
        else
          (db.map (fun r =>
              if r.id = mid then { r with is_deleted_by_sender := true } else r),
            .ok "Message deleted successfully"))) ∧
    (¬m.sender_id = uid → m.receiver_id = uid →
      delete_message db mid uid =
        (if m.is_deleted_by_sender = true then
          ((db.map (fun r =>
              if r.id = mid then { r with is_deleted_by_receiver := true } else r)).filter
            (fun r => r.id ≠ mid), .ok "Message permanently deleted")
        else
          (db.map (fun r =>
              if r.id = mid then { r with is_deleted_by_receiver := true } else r),
            .ok "Message deleted successfully"))) ∧
    (m.sender_id = uid →
      ((delete_message db mid uid).1.filter (fun r => r.id = mid) = [] ↔
        ({ m with is_deleted_by_sender := true }.is_deleted_by_sender = true ∧
          { m with is_deleted_by_sender := true }.is_deleted_by_receiver = true))) ∧
    (¬m.sender_id = uid → m.receiver_id = uid →
      ((delete_message db mid uid).1.filter (fun r => r.id = mid) = [] ↔
        ({ m with is_deleted_by_receiver := true }.is_deleted_by_sender = true ∧
          { m with is_deleted_by_receiver := true }.is_deleted_by_receiver = true))) := by
  have hmem : m ∈ db ∧ m.id = mid := by
    have h1 : m ∈ db.filter (fun x => x.id = mid) := hm ▸ List.mem_cons_self m rest
    have h2 := List.mem_filter.mp h1
    exact ⟨h2.1, of_decide_eq_true h2.2⟩
  have p2 : m.sender_id = uid →
      delete_message db mid uid =
        (if m.is_deleted_by_receiver = true then
          ((db.map (fun r =>
              if r.id = mid then { r with is_deleted_by_sender := true } else r)).filter
            (fun r => r.id ≠ mid), .ok "Message permanently deleted")
        else
          (db.map (fun r =>
              if r.id = mid then { r with is_deleted_by_sender := true } else r),
            .ok "Message deleted successfully")) := by
    intro hs
    unfold delete_message
    rw [hm]
    show delete_message_found db mid uid m = _
    unfold delete_message_found
    rw [if_neg (fun h => h.1 hs)]
    by_cases hr : m.is_deleted_by_receiver = true
    · simp [hs, hr]
    · simp [hs, hr]
  have p3 : ¬m.sender_id = uid → m.receiver_id = uid →
      delete_message db mid uid =
        (if m.is_deleted_by_sender = true then
          ((db.map (fun r =>
              if r.id = mid then { r with is_deleted_by_receiver := true } else r)).filter
            (fun r => r.id ≠ mid), .ok "Message permanently deleted")
        else
          (db.map (fun r =>
              if r.id = mid then { r with is_deleted_by_receiver := true } else r),
            .ok "Message deleted successfully")) := by
    intro hns hrcv
    unfold delete_message
    rw [hm]
    show delete_message_found db mid uid m = _
    unfold delete_message_found
    rw [if_neg (fun h => h.2 hrcv)]
    by_cases hsd : m.is_deleted_by_sender = true
    · simp [hns, hrcv, hsd]
    · simp [hns, hrcv, hsd]
  refine ⟨?_, p2, p3, ?_, ?_⟩
  · intro hperm
    unfold delete_message
    rw [hm]
    show delete_message_found db mid uid m = _
    unfold delete_message_found
    rw [if_pos hperm]
  · intro hs
    rw [p2 hs]
    by_cases hr : m.is_deleted_by_receiver = true
    · rw [if_pos hr]
      exact iff_of_true (filter_id_of_removed _ _) ⟨rfl, hr⟩
    · rw [if_neg hr]
      refine iff_of_false ?_ (fun h => hr h.2)
      refine filter_id_mem_ne_nil _ _
        ((fun r => if r.id = mid then { r with is_deleted_by_sender := true } else r) m)
        (List.mem_map_of_mem _ hmem.1) ?_
      simp [hmem.2]
  · intro hns hrcv
    rw [p3 hns hrcv]
    by_cases hsd : m.is_deleted_by_sender = true
    · rw [if_pos hsd]
      exact iff_of_true (filter_id_of_removed _ _) ⟨hsd, rfl⟩
    · rw [if_neg hsd]
      refine iff_of_false ?_ (fun h => hsd h.1)
      refine filter_id_mem_ne_nil _ _
        ((fun r => if r.id = mid then { r with is_deleted_by_receiver := true } else r) m)
        (List.mem_map_of_mem _ hmem.1) ?_
      simp [hmem.2]

/-- Witness for C10 on a one-message table (id 1, sender 10, receiver
20, both flags false): a stranger gets 403 with the table unchanged; the
sender's delete soft-sets only the sender flag; and on a message the
receiver had already deleted, the sender's delete removes the row. -/
theorem delete_message_spec_witness :
    delete_message [⟨1, 10, 20, "hi", "body", 0, none, false, false⟩] 1 99
      = ([⟨1, 10, 20, "hi", "body", 0, none, false, false⟩],
          .error (403, "Permission denied")) ∧
    delete_message [⟨1, 10, 20, "hi", "body", 0, none, false, false⟩] 1 10
      = ([⟨1, 10, 20, "hi", "body", 0, none, true, false⟩],
          .ok "Message deleted successfully") ∧
    delete_message [⟨2, 10, 20, "hi", "body", 0, none, false, true⟩] 2 10
      = ([], .ok "Message permanently deleted") ∧
    ((delete_message [⟨2, 10, 20, "hi", "body", 0, none, false, true⟩] 2 10).1.filter
        (fun r => r.id = 2) = [] ↔
      (true = true ∧ true = true)) :=
  ⟨(delete_message_spec [⟨1, 10, 20, "hi", "body", 0, none, false, false⟩] 1 99
      ⟨1, 10, 20, "hi", "body", 0, none, false, false⟩ [] (by decide)).1 (by decide),
    ((delete_message_spec [⟨1, 10, 20, "hi", "body", 0, none, false, false⟩] 1 10
      ⟨1, 10, 20, "hi", "body", 0, none, false, false⟩ [] (by decide)).2.1
      (by decide)).trans (by decide),
    ((delete_message_spec [⟨2, 10, 20, "hi", "body", 0, none, false, true⟩] 2 10
      ⟨2, 10, 20, "hi", "body", 0, none, false, true⟩ [] (by decide)).2.1
      (by decide)).trans (by decide),
    (delete_message_spec [⟨2, 10, 20, "hi", "body", 0, none, false, true⟩] 2 10
      ⟨2, 10, 20, "hi", "body", 0, none, false, true⟩ [] (by decide)).2.2.2.1
      (by decide)⟩

/-- C6: every handler outcome ends in a response with a status code and
a message — the framework's dispatch is total; a raised `HTTPException`
becomes a response with exactly its status and detail; any other
exception is converted by `global_exception_handler` into a 500 JSON
response carrying "Internal server error" and the exception's text; and
a concrete handler such as `login` (whose catch-all converts unexpected
errors into 401) can only end in a success or an `HTTPException`, never
an unhandled exception. -/
theorem error_responses_carry_status_and_message :
    (∀ o : Outcome, ∃ (s : Nat) (d : String) (e : Option String),
      respond o = ⟨s, d, e⟩) ∧
    (∀ m, respond (Outcome.exc m)
      = { status := 500, detail := "Internal server error", error := some m }) ∧
    (∀ s d, respond (Outcome.httpExc s d) = { status := s, detail := d, error := none }) ∧
    (∀ (vp : String → String → Bool) (db : AuthDB) (email password : String) (now : Int),
      (∃ b, login_outcome vp db email password now = Outcome.ok b) ∨
      (∃ s d, login_outcome vp db email password now = Outcome.httpExc s d)) := by
  refine ⟨?_, fun _ => rfl, fun _ _ => rfl, ?_⟩
  · intro o
    exact ⟨(respond o).status, (respond o).detail, (respond o).error, rfl⟩
  · intro vp db email password now
    unfold login_outcome
    cases hl : login vp db email password now with
    | ok v => exact Or.inl ⟨"login ok", rfl⟩
    | error p =>
      obtain ⟨s, d⟩ := p
      exact Or.inr ⟨s, d, rfl⟩

end WebReviewer
